import Mathlib

/-!
Verification of `src/float_shredder.h`, a header-only C library that
decomposes and reconstructs IEEE-754 single-precision floats at the bit
level.

Embedding conventions:

* A C `float` is modelled by its in-memory bit pattern, a natural number
  below `2^32` (`Float32 := Fin (2^32)`).  The library never performs
  float arithmetic except one addition of the literal `1` in
  `ShredFloatMantissa`; everything else is bit manipulation on the
  pattern, so the pattern is the whole observable state of a value.
* `uint32_t` arithmetic is `Nat` arithmetic reduced `% 2^32` wherever a C
  operation can exceed 32 bits (left shifts); `~` on `uint32_t` is
  `compl32`.
* A `(int32_t)` cast of a `uint32_t` is `toInt32`.
* The shift-count parameters are C `int`, modelled as `Int`.  A shift
  count that is still negative after the clamp reaches C's `<<` / `>>`
  with a negative right operand, which the C standard (6.5.7p3) leaves
  undefined; the shift operations therefore return `Option Float32`,
  with `none` for that undefined case and `some` everywhere else.
-/

/-- A C `float`, modelled by its IEEE-754 binary32 bit pattern:
1 sign bit (bit 31), 8 exponent bits (bits 30-23), 23 mantissa bits
(bits 22-0). -/
abbrev Float32 := Fin (2 ^ 32)

/-- `const uint32_t float_exp_mask = 0x7F800000;` -/
def float_exp_mask : Nat := 0x7F800000

/-- `const uint32_t float_sign_mask = 0x80000000;` -/
def float_sign_mask : Nat := 0x80000000

/-- `const uint32_t float_mantissa_mask = 0x007FFFFF;` -/
def float_mantissa_mask : Nat := 0x007FFFFF

/-- `const int float_exp_offset = 23;` -/
def float_exp_offset : Nat := 23

/-- `const int float_sign_offset = 31;` -/
def float_sign_offset : Nat := 31

/-- `const int float_exp_bias = 127;` -/
def float_exp_bias : Int := 127

/-- `const int double_exp_bias = 1023;` (reserved, unused by any function) -/
def double_exp_bias : Int := 1023

/-- C bitwise complement `~` on a `uint32_t` value: XOR with all 32 ones. -/
def compl32 (n : Nat) : Nat := (2 ^ 32 - 1) ^^^ (n % 2 ^ 32)

/-- `ShredFloatToData`: type-punning reinterpretation of a `float` as the
`uint32_t` holding the same bytes.  On the bit-pattern model this is the
identity on the pattern. -/
def ShredFloatToData (input_float : Float32) : Nat := input_float.val

/-- `ShredDataToFloat`: type-punning reinterpretation of a `uint32_t` as a
`float` with the same bytes.  The `% 2^32` models the `uint32_t` parameter
type of the C function. -/
def ShredDataToFloat (input_int : Nat) : Float32 :=
  ⟨input_int % 2 ^ 32, Nat.mod_lt _ (by norm_num)⟩

/-- `ShredFloatExpUnbiased`: the raw (biased) 8-bit exponent field,
right-aligned: `(ShredFloatToData(f) & float_exp_mask) >> float_exp_offset`.
(Despite the C name, no bias is subtracted here.) -/
def ShredFloatExpUnbiased (input_float : Float32) : Nat :=
  (ShredFloatToData input_float &&& float_exp_mask) >>> float_exp_offset

/-- `ShredFloatExpUnbiasedRaw`: the exponent field still in place,
`ShredFloatToData(f) & float_exp_mask`. -/
def ShredFloatExpUnbiasedRaw (input_float : Float32) : Nat :=
  ShredFloatToData input_float &&& float_exp_mask

/-- C cast `(int32_t)u` of a `uint32_t` value: reinterpret the low 32 bits
as a two's-complement signed integer. -/
def toInt32 (n : Nat) : Int :=
  if n % 2 ^ 32 < 2 ^ 31 then ((n % 2 ^ 32 : Nat) : Int)
  else ((n % 2 ^ 32 : Nat) : Int) - 2 ^ 32

/-- `ShredFloatExp`: `(int32_t)ShredFloatExpUnbiased(f) - 127`.  The
subtraction is `int32_t` arithmetic; it cannot overflow because the raw
exponent is at most 255, so plain `Int` subtraction is exact here. -/
def ShredFloatExp (input_float : Float32) : Int :=
  toInt32 (ShredFloatExpUnbiased input_float) - 127

/-- `ShredFloatMantissaRaw`: the 23-bit mantissa field, right-aligned:
`ShredFloatToData(f) & float_mantissa_mask`. -/
def ShredFloatMantissaRaw (input_float : Float32) : Nat :=
  ShredFloatToData input_float &&& float_mantissa_mask

/-- IEEE-754 binary32 addition of the constant `1.0f`, specialised to the
only arguments `ShredFloatMantissa` ever feeds it: patterns below `2^23`,
i.e. nonnegative denormal floats with value `x < 2^-126`.  For those the
exact sum `1 + x` lies strictly between `1` and `1 + 2^-24` (half an ulp of
`1.0`), so it rounds to exactly `1.0` (pattern `0x3F800000`) under the
default round-to-nearest mode.  Patterns outside that range never arise in
this library and are returned unchanged. -/
def float32AddOne (f : Float32) : Float32 :=
  if f.val < 2 ^ 23 then ShredDataToFloat 0x3F800000 else f

/-- `ShredFloatMantissa`: returns `ShredDataToFloat(ShredFloatMantissaRaw(f))`,
with `+ 1` (float addition) applied when `ShredFloatExpUnbiased(f) > 0`,
i.e. when the raw biased exponent field is nonzero. -/
def ShredFloatMantissa (input_float : Float32) : Float32 :=
  if ShredFloatExpUnbiased input_float > 0 then
    float32AddOne (ShredDataToFloat (ShredFloatMantissaRaw input_float))
  else
    ShredDataToFloat (ShredFloatMantissaRaw input_float)

/-- `ShredFloatIsNegative`: `(ShredFloatToData(f) & float_sign_mask) >> 31`
converted to `bool` (nonzero means `true`). -/
def ShredFloatIsNegative (input_float : Float32) : Bool :=
  decide ((ShredFloatToData input_float &&& float_sign_mask) >>> 31 ≠ 0)

/-- `ShredFloatShiftExpUp`: clamp `shift` to at most 8 via
`shift -= (shift - 8)`, extract the in-place exponent field, left-shift it,
re-mask, and OR with the untouched remaining bits.  A still-negative shift
count is C undefined behaviour (`none`); the `% 2^32` models `uint32_t`
left-shift wraparound. -/
def ShredFloatShiftExpUp (input_float : Float32) (shift : Int) : Option Float32 :=
  let shift := if shift > 8 then shift - (shift - 8) else shift
  if shift < 0 then none
  else
    let float_exp := ShredFloatToData input_float &&& float_exp_mask
    let float_no_exp := ShredFloatToData input_float &&& compl32 float_exp_mask
    some (ShredDataToFloat
      ((float_exp <<< shift.toNat % 2 ^ 32 &&& float_exp_mask) ||| float_no_exp))

/-- `ShredFloatShiftExpDown`: same as `ShredFloatShiftExpUp` with a right
shift of the exponent field. -/
def ShredFloatShiftExpDown (input_float : Float32) (shift : Int) : Option Float32 :=
  let shift := if shift > 8 then shift - (shift - 8) else shift
  if shift < 0 then none
  else
    let float_exp := ShredFloatToData input_float &&& float_exp_mask
    let float_no_exp := ShredFloatToData input_float &&& compl32 float_exp_mask
    some (ShredDataToFloat
      ((float_exp >>> shift.toNat &&& float_exp_mask) ||| float_no_exp))

/-- `ShredFloatShiftMantUp`: clamp `shift` to at most 23 via
`shift -= (shift - 23)`, extract the mantissa field, left-shift it, re-mask,
and OR with the untouched remaining bits. -/
def ShredFloatShiftMantUp (input_float : Float32) (shift : Int) : Option Float32 :=
  let shift := if shift > 23 then shift - (shift - 23) else shift
  if shift < 0 then none
  else
    let float_mant := ShredFloatToData input_float &&& float_mantissa_mask
    let float_no_mant := ShredFloatToData input_float &&& compl32 float_mantissa_mask
    some (ShredDataToFloat
      ((float_mant <<< shift.toNat % 2 ^ 32 &&& float_mantissa_mask) ||| float_no_mant))

/-- `ShredFloatShiftMantDown`: same as `ShredFloatShiftMantUp` with a right
shift of the mantissa field. -/
def ShredFloatShiftMantDown (input_float : Float32) (shift : Int) : Option Float32 :=
  let shift := if shift > 23 then shift - (shift - 23) else shift
  if shift < 0 then none
  else
    let float_mant := ShredFloatToData input_float &&& float_mantissa_mask
    let float_no_mant := ShredFloatToData input_float &&& compl32 float_mantissa_mask
    some (ShredDataToFloat
      ((float_mant >>> shift.toNat &&& float_mantissa_mask) ||| float_no_mant))

example : ShredFloatToData (ShredDataToFloat 0x3F800000) = 0x3F800000 := by decide
example : ShredFloatExpUnbiased (ShredDataToFloat 0x3F800000) = 127 := by decide
example : ShredFloatExp (ShredDataToFloat 0x3F800000) = 0 := by decide
example : ShredFloatMantissaRaw (ShredDataToFloat 0x3FC00000) = 0x400000 := by decide
example : ShredFloatIsNegative (ShredDataToFloat 0xBF800000) = true := by decide
example : ShredFloatIsNegative (ShredDataToFloat 0x3F800000) = false := by decide
example : ShredFloatShiftExpUp (ShredDataToFloat 0x3F800000) 1 =
    some (ShredDataToFloat 0x7F000000) := by decide
example : ShredFloatShiftExpUp (ShredDataToFloat 0x3F800000) (-1) = none := by decide
example : ShredFloatShiftExpUp (ShredDataToFloat 0x3F800000) 100 =
    ShredFloatShiftExpUp (ShredDataToFloat 0x3F800000) 8 := by decide
example : compl32 float_exp_mask = 0x807FFFFF := by decide
example : compl32 float_mantissa_mask = 0xFF800000 := by decide

/-! ### Bit-level helper lemmas -/

/-- AND with a contiguous run of `w` ones starting at bit `l`, in shift form. -/
theorem and_run (b l w : Nat) :
    b &&& ((2 ^ w - 1) <<< l) = ((b >>> l) % 2 ^ w) <<< l := by
  apply Nat.eq_of_testBit_eq
  intro i
  simp only [Nat.testBit_and, Nat.testBit_shiftLeft, Nat.testBit_two_pow_sub_one,
    Nat.testBit_mod_two_pow, Nat.testBit_shiftRight]
  by_cases h : l ≤ i
  · have h2 : l + (i - l) = i := by omega
    simp [h, h2, Bool.and_comm, Bool.and_left_comm]
  · simp [ge_iff_le, h]

/-- AND with a contiguous run of `w` ones starting at bit `l`, arithmetically. -/
theorem and_mask_div_mod (b l w : Nat) :
    b &&& ((2 ^ w - 1) <<< l) = b / 2 ^ l % 2 ^ w * 2 ^ l := by
  rw [and_run, Nat.shiftLeft_eq, Nat.shiftRight_eq_div_pow]

theorem exp_mask_eq : float_exp_mask = (2 ^ 8 - 1) <<< 23 := by decide

theorem mant_mask_eq : float_mantissa_mask = 2 ^ 23 - 1 := by decide

theorem sign_mask_eq : float_sign_mask = (2 ^ 1 - 1) <<< 31 := by decide

theorem and_exp (b : Nat) : b &&& float_exp_mask = b / 2 ^ 23 % 2 ^ 8 * 2 ^ 23 := by
  rw [exp_mask_eq, and_mask_div_mod]

theorem and_mant (b : Nat) : b &&& float_mantissa_mask = b % 2 ^ 23 := by
  rw [mant_mask_eq, Nat.and_pow_two_sub_one_eq_mod]

theorem and_sign (b : Nat) : b &&& float_sign_mask = b / 2 ^ 31 % 2 * 2 ^ 31 := by
  rw [sign_mask_eq, and_mask_div_mod, pow_one]

/-- Reducing the left argument of `&&&` mod `2^n` is invisible when the mask
lies below `2^n`. -/
theorem mod_two_pow_and (x m n : Nat) (h : m < 2 ^ n) : x % 2 ^ n &&& m = x &&& m := by
  apply Nat.eq_of_testBit_eq
  intro i
  simp only [Nat.testBit_and, Nat.testBit_mod_two_pow]
  by_cases hi : i < n
  · simp [hi]
  · have hm : Nat.testBit m i = false :=
      Nat.testBit_lt_two_pow (lt_of_lt_of_le h (Nat.pow_le_pow_right (by norm_num) (by omega)))
    simp [hi, hm]

/-- A value's masked and complement-masked parts OR back to the value. -/
theorem and_or_compl (b m : Nat) (hb : b < 2 ^ 32) (hm : m ||| compl32 m = 2 ^ 32 - 1) :
    (b &&& m) ||| (b &&& compl32 m) = b := by
  rw [← Nat.and_or_distrib_left, hm, Nat.and_pow_two_sub_one_eq_mod, Nat.mod_eq_of_lt hb]

/-- OR of a value shifted past `i` bits with a value below `2^i` is addition. -/
theorem or_eq_add_of_lt {b i : Nat} (a : Nat) (h : b < 2 ^ i) :
    2 ^ i * a ||| b = 2 ^ i * a + b :=
  (Nat.mul_add_lt_is_or h a).symm

theorem ShredDataToFloat_val (x : Nat) : (ShredDataToFloat x).val = x % 2 ^ 32 := rfl

/-! ### Arithmetic forms of the extractors -/

theorem ShredFloatExpUnbiased_eq (f : Float32) :
    ShredFloatExpUnbiased f = f.val / 2 ^ 23 % 2 ^ 8 := by
  unfold ShredFloatExpUnbiased ShredFloatToData float_exp_offset
  rw [and_exp, Nat.shiftRight_eq_div_pow, Nat.mul_div_cancel _ (by norm_num)]

theorem ShredFloatMantissaRaw_eq (f : Float32) :
    ShredFloatMantissaRaw f = f.val % 2 ^ 23 := by
  unfold ShredFloatMantissaRaw ShredFloatToData
  rw [and_mant]

theorem ShredFloatIsNegative_eq (f : Float32) :
    ShredFloatIsNegative f = decide (f.val / 2 ^ 31 % 2 = 1) := by
  unfold ShredFloatIsNegative ShredFloatToData
  rw [and_sign, Nat.shiftRight_eq_div_pow, Nat.mul_div_cancel _ (by norm_num)]
  have h : f.val / 2 ^ 31 % 2 = 0 ∨ f.val / 2 ^ 31 % 2 = 1 := by omega
  rcases h with h | h <;> simp [h]

/-! ### Claims -/

/-- Claim C1: the float/bits reinterpretations are mutually inverse bit
identities — `ShredFloatToData (ShredDataToFloat b) = b` for every 32-bit
pattern `b`, and `ShredDataToFloat (ShredFloatToData v) = v` for every
float value `v`; both are total Lean functions, so no input (NaN payloads,
infinities, denormals included) is rejected. -/
theorem shred_roundtrip :
    (∀ b : Nat, b < 2 ^ 32 → ShredFloatToData (ShredDataToFloat b) = b) ∧
    (∀ f : Float32, ShredDataToFloat (ShredFloatToData f) = f) := by
  constructor
  · intro b hb
    simp only [ShredFloatToData, ShredDataToFloat]
    omega
  · intro f
    apply Fin.ext
    simp only [ShredFloatToData, ShredDataToFloat]
    have h := f.isLt
    omega

/-- Witness for C1 at the NaN-payload pattern 0x7FC00123 and at a denormal. -/
theorem shred_roundtrip_witness :
    ShredFloatToData (ShredDataToFloat 0x7FC00123) = 0x7FC00123 ∧
    ShredDataToFloat (ShredFloatToData (ShredDataToFloat 0x00000001)) =
      ShredDataToFloat 0x00000001 :=
  ⟨shred_roundtrip.1 0x7FC00123 (by norm_num),
   shred_roundtrip.2 (ShredDataToFloat 0x00000001)⟩

/-- Claim C3: `ShredFloatExp` is the raw exponent field minus the bias 127,
as exact signed arithmetic (the `int32_t` cast cannot wrap because the raw
field is at most 255), uniformly for every float, including the reserved
raw values 0 (shown at the pattern of +0.0) and 255 (shown at +inf and a
quiet NaN). -/
theorem shred_exp_bias :
    (∀ f : Float32, ShredFloatExp f = (ShredFloatExpUnbiased f : Int) - 127) ∧
    ShredFloatExp (ShredDataToFloat 0x00000000) = 0 - 127 ∧
    ShredFloatExp (ShredDataToFloat 0x7F800000) = 255 - 127 ∧
    ShredFloatExp (ShredDataToFloat 0x7FC00000) = 255 - 127 := by
  refine ⟨fun f => ?_, by decide, by decide, by decide⟩
  unfold ShredFloatExp toInt32
  rw [ShredFloatExpUnbiased_eq]
  rw [Nat.mod_eq_of_lt (show f.val / 2 ^ 23 % 2 ^ 8 < 2 ^ 32 by omega),
    if_pos (show f.val / 2 ^ 23 % 2 ^ 8 < 2 ^ 31 by omega)]

/-- Claim C2: the three extracted fields — the sign bit at position 31, the
raw exponent field shifted into bits 30-23, and the raw mantissa in bits
22-0 — recombine via OR to exactly the bit pattern of the float. -/
theorem shred_field_recomposition (f : Float32) :
    ((if ShredFloatIsNegative f then float_sign_mask else 0) |||
      ShredFloatExpUnbiased f <<< 23 ||| ShredFloatMantissaRaw f) =
    ShredFloatToData f := by
  rw [ShredFloatIsNegative_eq, ShredFloatExpUnbiased_eq, ShredFloatMantissaRaw_eq]
  obtain ⟨b, hb⟩ := f
  simp only [ShredFloatToData]
  have hm : b % 2 ^ 23 < 2 ^ 23 := Nat.mod_lt _ (by norm_num)
  rw [Nat.or_assoc, Nat.shiftLeft_eq, Nat.mul_comm, or_eq_add_of_lt _ hm]
  have hs : b / 2 ^ 31 % 2 = 0 ∨ b / 2 ^ 31 % 2 = 1 := by omega
  rcases hs with h | h
  · rw [h, if_neg (by decide : ¬(decide ((0 : Nat) = 1) = true)), Nat.zero_or]
    omega
  · rw [h, if_pos (by decide : decide ((1 : Nat) = 1) = true),
      show float_sign_mask = 2 ^ 31 * 1 from by decide]
    have hlt : 2 ^ 23 * (b / 2 ^ 23 % 2 ^ 8) + b % 2 ^ 23 < 2 ^ 31 := by omega
    rw [or_eq_add_of_lt _ hlt]
    omega

/-! ### Claim C4: ShredFloatMantissa -/

/-- Claim C4 counterexample: at v = 1.0 (pattern 0x3F800000) the unbiased
exponent `ShredFloatExp` is 0, hence not positive, so the claim demands the
unincremented `ShredDataToFloat (ShredFloatMantissaRaw v)` (which is +0.0);
but the code tests the raw biased field `ShredFloatExpUnbiased` (= 127 > 0)
and returns the incremented value 1.0 instead. -/
theorem shred_mantissa_cex :
    ¬ 0 < ShredFloatExp (ShredDataToFloat 0x3F800000) ∧
    ShredFloatMantissa (ShredDataToFloat 0x3F800000) ≠
      ShredDataToFloat (ShredFloatMantissaRaw (ShredDataToFloat 0x3F800000)) := by
  decide

/-- Claim C4 amended: `ShredFloatMantissa` increments exactly when the raw
(biased) exponent field is nonzero — not when the unbiased exponent is
positive — and the increment, being IEEE addition of 1.0 to a nonnegative
denormal, always returns exactly the float 1.0 (pattern 0x3F800000);
when the raw exponent field is zero the raw mantissa reinterpreted as a
float is returned unincremented. -/
theorem shred_mantissa_spec (f : Float32) :
    (0 < ShredFloatExpUnbiased f →
      ShredFloatMantissa f = ShredDataToFloat 0x3F800000) ∧
    (ShredFloatExpUnbiased f = 0 →
      ShredFloatMantissa f = ShredDataToFloat (ShredFloatMantissaRaw f)) := by
  have hm : ShredFloatMantissaRaw f < 2 ^ 23 := by
    rw [ShredFloatMantissaRaw_eq]
    omega
  constructor
  · intro h
    unfold ShredFloatMantissa float32AddOne
    rw [if_pos h, if_pos (show (ShredDataToFloat (ShredFloatMantissaRaw f)).val < 2 ^ 23 by
      rw [ShredDataToFloat_val]; omega)]
  · intro h
    unfold ShredFloatMantissa
    rw [if_neg (by omega : ¬ ShredFloatExpUnbiased f > 0)]

/-- Witness for the amended C4: at 1.0 the result is 1.0 (raw exponent 127),
and at the denormal pattern 0x00400001 the result is the unchanged
reinterpreted mantissa. -/
theorem shred_mantissa_spec_witness :
    ShredFloatMantissa (ShredDataToFloat 0x3F800000) = ShredDataToFloat 0x3F800000 ∧
    ShredFloatMantissa (ShredDataToFloat 0x00400001) =
      ShredDataToFloat (ShredFloatMantissaRaw (ShredDataToFloat 0x00400001)) :=
  ⟨(shred_mantissa_spec (ShredDataToFloat 0x3F800000)).1 (by decide),
   (shred_mantissa_spec (ShredDataToFloat 0x00400001)).2 (by decide)⟩

/-! ### Evaluation and clamp lemmas for the shift operations -/

theorem ShredFloatShiftExpUp_eq (f : Float32) (s : Int) (h0 : 0 ≤ s) (h8 : s ≤ 8) :
    ShredFloatShiftExpUp f s = some (ShredDataToFloat
      (((f.val &&& float_exp_mask) <<< s.toNat &&& float_exp_mask) |||
        (f.val &&& compl32 float_exp_mask))) := by
  simp only [ShredFloatShiftExpUp, ShredFloatToData]
  rw [if_neg (by omega : ¬ s > 8), if_neg (by omega : ¬ s < 0),
    mod_two_pow_and _ float_exp_mask 32 (by decide)]

theorem ShredFloatShiftExpDown_eq (f : Float32) (s : Int) (h0 : 0 ≤ s) (h8 : s ≤ 8) :
    ShredFloatShiftExpDown f s = some (ShredDataToFloat
      (((f.val &&& float_exp_mask) >>> s.toNat &&& float_exp_mask) |||
        (f.val &&& compl32 float_exp_mask))) := by
  simp only [ShredFloatShiftExpDown, ShredFloatToData]
  rw [if_neg (by omega : ¬ s > 8), if_neg (by omega : ¬ s < 0)]

theorem ShredFloatShiftMantUp_eq (f : Float32) (s : Int) (h0 : 0 ≤ s) (h23 : s ≤ 23) :
    ShredFloatShiftMantUp f s = some (ShredDataToFloat
      (((f.val &&& float_mantissa_mask) <<< s.toNat &&& float_mantissa_mask) |||
        (f.val &&& compl32 float_mantissa_mask))) := by
  simp only [ShredFloatShiftMantUp, ShredFloatToData]
  rw [if_neg (by omega : ¬ s > 23), if_neg (by omega : ¬ s < 0),
    mod_two_pow_and _ float_mantissa_mask 32 (by decide)]

theorem ShredFloatShiftMantDown_eq (f : Float32) (s : Int) (h0 : 0 ≤ s) (h23 : s ≤ 23) :
    ShredFloatShiftMantDown f s = some (ShredDataToFloat
      (((f.val &&& float_mantissa_mask) >>> s.toNat &&& float_mantissa_mask) |||
        (f.val &&& compl32 float_mantissa_mask))) := by
  simp only [ShredFloatShiftMantDown, ShredFloatToData]
  rw [if_neg (by omega : ¬ s > 23), if_neg (by omega : ¬ s < 0)]

theorem ShredFloatShiftExpUp_clamp (f : Float32) (s : Int) (h : 8 < s) :
    ShredFloatShiftExpUp f s = ShredFloatShiftExpUp f 8 := by
  simp only [ShredFloatShiftExpUp]
  rw [if_pos (show s > 8 from h), show s - (s - 8) = (8 : Int) from by omega]
  norm_num

theorem ShredFloatShiftExpDown_clamp (f : Float32) (s : Int) (h : 8 < s) :
    ShredFloatShiftExpDown f s = ShredFloatShiftExpDown f 8 := by
  simp only [ShredFloatShiftExpDown]
  rw [if_pos (show s > 8 from h), show s - (s - 8) = (8 : Int) from by omega]
  norm_num

theorem ShredFloatShiftMantUp_clamp (f : Float32) (s : Int) (h : 23 < s) :
    ShredFloatShiftMantUp f s = ShredFloatShiftMantUp f 23 := by
  simp only [ShredFloatShiftMantUp]
  rw [if_pos (show s > 23 from h), show s - (s - 23) = (23 : Int) from by omega]
  norm_num

theorem ShredFloatShiftMantDown_clamp (f : Float32) (s : Int) (h : 23 < s) :
    ShredFloatShiftMantDown f s = ShredFloatShiftMantDown f 23 := by
  simp only [ShredFloatShiftMantDown]
  rw [if_pos (show s > 23 from h), show s - (s - 23) = (23 : Int) from by omega]
  norm_num

theorem ShredDataToFloat_toData (f : Float32) : ShredDataToFloat f.val = f :=
  Fin.ext (by rw [ShredDataToFloat_val]; exact Nat.mod_eq_of_lt f.isLt)

/-! ### Claim C5: exact shift formula for in-range counts -/

/-- Claim C5: for 0 ≤ s ≤ 8 both exponent shifts follow the shift-then-mask
order exactly: the masked, still left-aligned exponent field is shifted by
s, re-masked with 0x7F800000, and ORed with the bits selected by the
complement mask (~0x7F800000, i.e. `compl32 float_exp_mask`). -/
theorem shred_shift_formula (f : Float32) (s : Int) (h0 : 0 ≤ s) (h8 : s ≤ 8) :
    ShredFloatShiftExpUp f s = some (ShredDataToFloat
      (((ShredFloatToData f &&& float_exp_mask) <<< s.toNat &&& float_exp_mask) |||
        (ShredFloatToData f &&& compl32 float_exp_mask))) ∧
    ShredFloatShiftExpDown f s = some (ShredDataToFloat
      (((ShredFloatToData f &&& float_exp_mask) >>> s.toNat &&& float_exp_mask) |||
        (ShredFloatToData f &&& compl32 float_exp_mask))) :=
  ⟨ShredFloatShiftExpUp_eq f s h0 h8, ShredFloatShiftExpDown_eq f s h0 h8⟩

/-- Witness for C5 at 1.0 with shift 1: the exponent field 0x3F800000
shifts to 0x7F000000 within the mask. -/
theorem shred_shift_formula_witness :
    ShredFloatShiftExpUp (ShredDataToFloat 0x3F800000) 1 = some (ShredDataToFloat
      (((ShredFloatToData (ShredDataToFloat 0x3F800000) &&& float_exp_mask) <<<
          (1 : Int).toNat &&& float_exp_mask) |||
        (ShredFloatToData (ShredDataToFloat 0x3F800000) &&& compl32 float_exp_mask))) ∧
    ShredFloatShiftExpDown (ShredDataToFloat 0x3F800000) 1 = some (ShredDataToFloat
      (((ShredFloatToData (ShredDataToFloat 0x3F800000) &&& float_exp_mask) >>>
          (1 : Int).toNat &&& float_exp_mask) |||
        (ShredFloatToData (ShredDataToFloat 0x3F800000) &&& compl32 float_exp_mask))) :=
  shred_shift_formula (ShredDataToFloat 0x3F800000) 1 (by norm_num) (by norm_num)

/-! ### Claim C6: the clamp saturates -/

/-- Claim C6: any shift count above the cap behaves exactly like the cap
(`shift - (shift - cap)` is exactly the cap): shifting the exponent up by
any s > 8 equals shifting by 8, shifting the mantissa up by any s > 23
equals shifting by 23, and no failure is signalled (the result exists). -/
theorem shred_shift_clamp (f : Float32) (s : Int) :
    (8 < s → ShredFloatShiftExpUp f s = ShredFloatShiftExpUp f 8 ∧
      (ShredFloatShiftExpUp f s).isSome = true) ∧
    (23 < s → ShredFloatShiftMantUp f s = ShredFloatShiftMantUp f 23 ∧
      (ShredFloatShiftMantUp f s).isSome = true) := by
  constructor
  · intro h
    have heq := ShredFloatShiftExpUp_clamp f s h
    refine ⟨heq, ?_⟩
    rw [heq, ShredFloatShiftExpUp_eq f 8 (by norm_num) (by norm_num)]
    rfl
  · intro h
    have heq := ShredFloatShiftMantUp_clamp f s h
    refine ⟨heq, ?_⟩
    rw [heq, ShredFloatShiftMantUp_eq f 23 (by norm_num) (by norm_num)]
    rfl

/-- Witness for C6: the claim's concrete instances at -12.25
(pattern 0xC1440000), with shift counts 100 and 1000. -/
theorem shred_shift_clamp_witness :
    ShredFloatShiftExpUp (ShredDataToFloat 0xC1440000) 100 =
      ShredFloatShiftExpUp (ShredDataToFloat 0xC1440000) 8 ∧
    ShredFloatShiftMantUp (ShredDataToFloat 0xC1440000) 1000 =
      ShredFloatShiftMantUp (ShredDataToFloat 0xC1440000) 23 :=
  ⟨((shred_shift_clamp (ShredDataToFloat 0xC1440000) 100).1 (by norm_num)).1,
   ((shred_shift_clamp (ShredDataToFloat 0xC1440000) 1000).2 (by norm_num)).1⟩

/-! ### Claim C7: shift by zero is the identity -/

/-- Claim C7: a shift count of zero leaves the float unchanged, shown for
`ShredFloatShiftExpUp` and `ShredFloatShiftMantDown`. -/
theorem shred_shift_zero_id (f : Float32) :
    ShredFloatShiftExpUp f 0 = some f ∧ ShredFloatShiftMantDown f 0 = some f := by
  have hb := f.isLt
  constructor
  · rw [ShredFloatShiftExpUp_eq f 0 le_rfl (by norm_num),
      show ((0 : Int)).toNat = 0 from rfl, Nat.shiftLeft_zero, Nat.and_assoc, Nat.and_self,
      and_or_compl f.val float_exp_mask hb (by decide), ShredDataToFloat_toData]
  · rw [ShredFloatShiftMantDown_eq f 0 le_rfl (by norm_num),
      show ((0 : Int)).toNat = 0 from rfl, Nat.shiftRight_zero, Nat.and_assoc, Nat.and_self,
      and_or_compl f.val float_mantissa_mask hb (by decide), ShredDataToFloat_toData]

/-! ### Claim C8: frame preservation of the field-local shifts -/

/-- The core frame argument: a shift result has the shape
`(X &&& m) ||| (b &&& ~m)`; any mask `c` disjoint from `m` and contained in
`~m` reads the same bits from it as from `b`. -/
theorem frame_aux (X b m c : Nat) (hc : c < 2 ^ 32) (hmc : m &&& c = 0)
    (hcc : compl32 m &&& c = c) :
    (X &&& m ||| (b &&& compl32 m)) % 2 ^ 32 &&& c = b &&& c := by
  rw [mod_two_pow_and _ c 32 hc, Nat.and_distrib_right, Nat.and_assoc, hmc, Nat.and_zero,
    Nat.zero_or, Nat.and_assoc, hcc]

/-- Claim C8: whenever a field-local shift produces a result, all bits
outside the target field are unchanged: exponent shifts preserve the sign
bit and the 23 mantissa bits, mantissa shifts preserve the sign bit and the
8 exponent bits. -/
theorem shred_shift_frame (f : Float32) (s : Int) (g : Float32) :
    (ShredFloatShiftExpUp f s = some g →
      ShredFloatToData g &&& float_sign_mask = ShredFloatToData f &&& float_sign_mask ∧
      ShredFloatToData g &&& float_mantissa_mask =
        ShredFloatToData f &&& float_mantissa_mask) ∧
    (ShredFloatShiftExpDown f s = some g →
      ShredFloatToData g &&& float_sign_mask = ShredFloatToData f &&& float_sign_mask ∧
      ShredFloatToData g &&& float_mantissa_mask =
        ShredFloatToData f &&& float_mantissa_mask) ∧
    (ShredFloatShiftMantUp f s = some g →
      ShredFloatToData g &&& float_sign_mask = ShredFloatToData f &&& float_sign_mask ∧
      ShredFloatToData g &&& float_exp_mask = ShredFloatToData f &&& float_exp_mask) ∧
    (ShredFloatShiftMantDown f s = some g →
      ShredFloatToData g &&& float_sign_mask = ShredFloatToData f &&& float_sign_mask ∧
      ShredFloatToData g &&& float_exp_mask = ShredFloatToData f &&& float_exp_mask) := by
  refine ⟨fun h => ?_, fun h => ?_, fun h => ?_, fun h => ?_⟩
  · simp only [ShredFloatShiftExpUp, ShredFloatToData] at h
    by_cases hc : (if s > 8 then s - (s - 8) else s) < 0
    · rw [if_pos hc] at h
      exact Option.noConfusion h
    · rw [if_neg hc, Option.some_inj] at h
      subst h
      simp only [ShredFloatToData, ShredDataToFloat_val]
      exact ⟨frame_aux _ _ _ _ (by decide) (by decide) (by decide),
        frame_aux _ _ _ _ (by decide) (by decide) (by decide)⟩
  · simp only [ShredFloatShiftExpDown, ShredFloatToData] at h
    by_cases hc : (if s > 8 then s - (s - 8) else s) < 0
    · rw [if_pos hc] at h
      exact Option.noConfusion h
    · rw [if_neg hc, Option.some_inj] at h
      subst h
      simp only [ShredFloatToData, ShredDataToFloat_val]
      exact ⟨frame_aux _ _ _ _ (by decide) (by decide) (by decide),
        frame_aux _ _ _ _ (by decide) (by decide) (by decide)⟩
  · simp only [ShredFloatShiftMantUp, ShredFloatToData] at h
    by_cases hc : (if s > 23 then s - (s - 23) else s) < 0
    · rw [if_pos hc] at h
      exact Option.noConfusion h
    · rw [if_neg hc, Option.some_inj] at h
      subst h
      simp only [ShredFloatToData, ShredDataToFloat_val]
      exact ⟨frame_aux _ _ _ _ (by decide) (by decide) (by decide),
        frame_aux _ _ _ _ (by decide) (by decide) (by decide)⟩
  · simp only [ShredFloatShiftMantDown, ShredFloatToData] at h
    by_cases hc : (if s > 23 then s - (s - 23) else s) < 0
    · rw [if_pos hc] at h
      exact Option.noConfusion h
    · rw [if_neg hc, Option.some_inj] at h
      subst h
      simp only [ShredFloatToData, ShredDataToFloat_val]
      exact ⟨frame_aux _ _ _ _ (by decide) (by decide) (by decide),
        frame_aux _ _ _ _ (by decide) (by decide) (by decide)⟩

/-- Witness for C8 at 1.0 with shift 1; the four results were computed by
evaluation (`decide` checks each `= some g` hypothesis). -/
theorem shred_shift_frame_witness :
    (ShredFloatToData (ShredDataToFloat 0x7F000000) &&& float_sign_mask =
        ShredFloatToData (ShredDataToFloat 0x3F800000) &&& float_sign_mask ∧
      ShredFloatToData (ShredDataToFloat 0x7F000000) &&& float_mantissa_mask =
        ShredFloatToData (ShredDataToFloat 0x3F800000) &&& float_mantissa_mask) ∧
    (ShredFloatToData (ShredDataToFloat 0x1F800000) &&& float_sign_mask =
        ShredFloatToData (ShredDataToFloat 0x3F800000) &&& float_sign_mask ∧
      ShredFloatToData (ShredDataToFloat 0x1F800000) &&& float_mantissa_mask =
        ShredFloatToData (ShredDataToFloat 0x3F800000) &&& float_mantissa_mask) ∧
    (ShredFloatToData (ShredDataToFloat 0x3F800000) &&& float_sign_mask =
        ShredFloatToData (ShredDataToFloat 0x3F800000) &&& float_sign_mask ∧
      ShredFloatToData (ShredDataToFloat 0x3F800000) &&& float_exp_mask =
        ShredFloatToData (ShredDataToFloat 0x3F800000) &&& float_exp_mask) := by
  refine ⟨?_, ?_, ?_⟩
  · exact (shred_shift_frame (ShredDataToFloat 0x3F800000) 1
      (ShredDataToFloat 0x7F000000)).1 (by decide)
  · exact ((shred_shift_frame (ShredDataToFloat 0x3F800000) 1
      (ShredDataToFloat 0x1F800000)).2).1 (by decide)
  · exact (((shred_shift_frame (ShredDataToFloat 0x3F800000) 1
      (ShredDataToFloat 0x3F800000)).2).2).1 (by decide)

/-! ### Claim C9: totality -/

/-- Claim C9 counterexample: at the float 1.0 with shift count -1, every
shift operation hits C undefined behaviour (a negative right operand of
`<<` / `>>`), modelled as `none`: the operations are not total over
negative shift counts. -/
theorem shred_shift_negative_cex :
    ShredFloatShiftExpUp (ShredDataToFloat 0x3F800000) (-1) = none ∧
    ShredFloatShiftExpDown (ShredDataToFloat 0x3F800000) (-1) = none ∧
    ShredFloatShiftMantUp (ShredDataToFloat 0x3F800000) (-1) = none ∧
    ShredFloatShiftMantDown (ShredDataToFloat 0x3F800000) (-1) = none := by
  decide

/-- Claim C9 amended: every shift operation is total for every float and
every nonnegative shift count — out-of-range counts are silently clamped,
never rejected; only negative counts (C undefined behaviour) escape the
guarantee. -/
theorem shred_shift_total (f : Float32) (s : Int) (h : 0 ≤ s) :
    (ShredFloatShiftExpUp f s).isSome = true ∧
    (ShredFloatShiftExpDown f s).isSome = true ∧
    (ShredFloatShiftMantUp f s).isSome = true ∧
    (ShredFloatShiftMantDown f s).isSome = true := by
  have h8 : ¬ (if s > 8 then s - (s - 8) else s) < 0 := by
    by_cases hc : s > 8
    · rw [if_pos hc]; omega
    · rw [if_neg hc]; omega
  have h23 : ¬ (if s > 23 then s - (s - 23) else s) < 0 := by
    by_cases hc : s > 23
    · rw [if_pos hc]; omega
    · rw [if_neg hc]; omega
  refine ⟨?_, ?_, ?_, ?_⟩
  · simp only [ShredFloatShiftExpUp]
    rw [if_neg h8]
    rfl
  · simp only [ShredFloatShiftExpDown]
    rw [if_neg h8]
    rfl
  · simp only [ShredFloatShiftMantUp]
    rw [if_neg h23]
    rfl
  · simp only [ShredFloatShiftMantDown]
    rw [if_neg h23]
    rfl

/-- Witness for the amended C9 at a negative NaN pattern with an
out-of-range shift count 40. -/
theorem shred_shift_total_witness :
    (ShredFloatShiftExpUp (ShredDataToFloat 0xFFC00001) 40).isSome = true ∧
    (ShredFloatShiftExpDown (ShredDataToFloat 0xFFC00001) 40).isSome = true ∧
    (ShredFloatShiftMantUp (ShredDataToFloat 0xFFC00001) 40).isSome = true ∧
    (ShredFloatShiftMantDown (ShredDataToFloat 0xFFC00001) 40).isSome = true :=
  shred_shift_total (ShredDataToFloat 0xFFC00001) 40 (by norm_num)

/-! ### Claim C10: full-width down-shifts clear the field -/

theorem and_compl_exp (b : Nat) :
    b &&& compl32 float_exp_mask = 2 ^ 31 * (b / 2 ^ 31 % 2) + b % 2 ^ 23 := by
  rw [show compl32 float_exp_mask = float_sign_mask ||| float_mantissa_mask from by decide,
    Nat.and_or_distrib_left, and_sign, and_mant, Nat.mul_comm (b / 2 ^ 31 % 2) (2 ^ 31),
    or_eq_add_of_lt _ (show b % 2 ^ 23 < 2 ^ 31 from by omega)]

theorem and_compl_mant (b : Nat) (hb : b < 2 ^ 32) :
    b &&& compl32 float_mantissa_mask = b / 2 ^ 23 * 2 ^ 23 := by
  rw [show compl32 float_mantissa_mask = (2 ^ 9 - 1) <<< 23 from by decide, and_mask_div_mod,
    Nat.mod_eq_of_lt (show b / 2 ^ 23 < 2 ^ 9 from by omega)]

/-- Claim C10: a down-shift by at least the field width zeroes the field:
for s ≥ 8 the raw exponent field of `ShredFloatShiftExpDown f s` is 0, and
for s ≥ 23 the raw mantissa field of `ShredFloatShiftMantDown f s` is 0,
because the clamped shift moves every field bit below the mask before
re-masking. -/
theorem shred_shift_down_zeroes (f : Float32) (s : Int) :
    (8 ≤ s → (ShredFloatShiftExpDown f s).map ShredFloatExpUnbiased = some 0) ∧
    (23 ≤ s → (ShredFloatShiftMantDown f s).map ShredFloatMantissaRaw = some 0) := by
  have hb := f.isLt
  constructor
  · intro h
    have heq : ShredFloatShiftExpDown f s = ShredFloatShiftExpDown f 8 := by
      rcases lt_or_eq_of_le h with h' | h'
      · exact ShredFloatShiftExpDown_clamp f s h'
      · rw [← h']
    rw [heq, ShredFloatShiftExpDown_eq f 8 (by norm_num) (by norm_num)]
    simp only [Option.map_some']
    congr 1
    rw [ShredFloatExpUnbiased_eq, ShredDataToFloat_val,
      show ((8 : Int)).toNat = 8 from rfl, and_exp f.val, Nat.shiftRight_eq_div_pow,
      and_exp (f.val / 2 ^ 23 % 2 ^ 8 * 2 ^ 23 / 2 ^ 8),
      show f.val / 2 ^ 23 % 2 ^ 8 * 2 ^ 23 / 2 ^ 8 / 2 ^ 23 % 2 ^ 8 * 2 ^ 23 = 0 from by omega,
      Nat.zero_or, and_compl_exp f.val]
    omega
  · intro h
    have heq : ShredFloatShiftMantDown f s = ShredFloatShiftMantDown f 23 := by
      rcases lt_or_eq_of_le h with h' | h'
      · exact ShredFloatShiftMantDown_clamp f s h'
      · rw [← h']
    rw [heq, ShredFloatShiftMantDown_eq f 23 (by norm_num) (by norm_num)]
    simp only [Option.map_some']
    congr 1
    rw [ShredFloatMantissaRaw_eq, ShredDataToFloat_val,
      show ((23 : Int)).toNat = 23 from rfl, and_mant f.val, Nat.shiftRight_eq_div_pow,
      show f.val % 2 ^ 23 / 2 ^ 23 = 0 from by omega,
      Nat.zero_and, Nat.zero_or, and_compl_mant f.val hb]
    omega

/-- Witness for C10 at the all-ones pattern with shift counts 9 and 23. -/
theorem shred_shift_down_zeroes_witness :
    (ShredFloatShiftExpDown (ShredDataToFloat 0xFFFFFFFF) 9).map ShredFloatExpUnbiased =
      some 0 ∧
    (ShredFloatShiftMantDown (ShredDataToFloat 0xFFFFFFFF) 23).map ShredFloatMantissaRaw =
      some 0 :=
  ⟨(shred_shift_down_zeroes (ShredDataToFloat 0xFFFFFFFF) 9).1 (by norm_num),
   (shred_shift_down_zeroes (ShredDataToFloat 0xFFFFFFFF) 23).2 (by norm_num)⟩
